import Mathlib

/-!
Verification of the terminal-bridge module (`src/socket_shell.rs`) of the
`monitor` repository.

The Rust module is shallowly embedded below.  Strings are modelled as Lean
`String`s; the Rust `str` primitives used by the code (`split(':')`,
`lines()`, `contains(..)`, `trim()`) are modelled character-exactly as
structurally recursive functions over `List Char`, so that every definition
is executable and every concrete instance can be settled by `decide`.

Layout of the embedding:
* `SystemInfo`, `TerminalMessage` — the two serde structs (lines 13-28).
* `stdoutProcessChunk` — one iteration of the stdout pump's read loop on a
  decoded chunk (lines 150-198 of `start_local_shell`).
* `primingEvents`, `processInput`, `stdinPumpEvents` — the stdin pump
  (lines 237-269), modelled as the trace of writes/sleeps it performs on
  the happy path (every pipe write succeeds).
* `encodeTerminalMessage` — the serde_json serialization of an envelope.
* `outboundStep` — the outbound pump's per-item action (lines 63-84 of
  `handle_socket`).
* `inboundDispatch`, `inboundPump` — the inbound pump (lines 92-111).
* `register`, `unregister` — the session registry (lines 30, 46-49, 86-89),
  modelled extensionally as a map `String → Option σ`.
* `outboundTaskStep` — a one-task scheduler step for the outbound pump's
  blocking structure, used to analyse the cleanup path (lines 62-89,
  113-118).
-/

namespace SocketShell

/-- The `SystemInfo` serde struct (socket_shell.rs lines 22-28). -/
structure SystemInfo where
  pwd : String
  user : String
  hostname : String
  shell : String
deriving DecidableEq, Repr

/-- The `TerminalMessage` envelope struct (lines 13-20); the Rust field
`msg_type` is serialized under the JSON key `type`. -/
structure TerminalMessage where
  msg_type : String
  data : String
  timestamp : Int
  system_info : Option SystemInfo
deriving DecidableEq, Repr

/-- Rust `str::split(sep)` for a `char` separator, on the character list of
the string: splits at every occurrence of `sep`, keeping empty pieces, and
yields one more piece than there are separators. -/
def splitOnChar (sep : Char) : List Char → List (List Char)
  | [] => [[]]
  | c :: rest =>
    match splitOnChar sep rest with
    | [] => [[]]
    | h :: t => if c = sep then [] :: h :: t else (c :: h) :: t

/-- Helper for `rustLines`: a piece that was terminated by a newline has a
trailing carriage return removed (Rust treats a bare `\r\n` as one line
terminator). -/
def stripCR (l : List Char) : List Char :=
  if l.getLast? = some '\r' then l.dropLast else l

/-- Rust `str::lines()`: split at `\n`, strip a `\r` preceding each `\n`,
and drop an optional final empty piece (a trailing line terminator does not
produce an extra empty line). -/
def rustLines (s : List Char) : List (List Char) :=
  let parts := splitOnChar '\n' s
  parts.dropLast.map stripCR ++
    (match parts.getLast? with
     | some [] => []
     | some l => [l]
     | none => [])

/-- Rust `str::contains(pat)` for a string pattern: `pat` occurs as a
contiguous subsequence of `s`. -/
def containsSeq (pat : List Char) (s : List Char) : Bool :=
  pat.isPrefixOf s ||
    match s with
    | [] => false
    | _ :: rest => containsSeq pat rest

/-- Rust `char::is_whitespace()`: the Unicode White_Space property —
U+0009..U+000D (tab, line feed, vertical tab, form feed, carriage return),
space, next line (U+0085), no-break space (U+00A0), ogham space mark
(U+1680), the en-quad..hair-space block (U+2000..U+200A), the line and
paragraph separators (U+2028, U+2029), narrow no-break space (U+202F),
medium mathematical space (U+205F) and ideographic space (U+3000). -/
def rustIsWhitespace (c : Char) : Bool :=
  (decide (0x09 ≤ c.toNat) && decide (c.toNat ≤ 0x0D))
    || c.toNat == 0x20 || c.toNat == 0x85 || c.toNat == 0xA0
    || c.toNat == 0x1680
    || (decide (0x2000 ≤ c.toNat) && decide (c.toNat ≤ 0x200A))
    || c.toNat == 0x2028 || c.toNat == 0x2029 || c.toNat == 0x202F
    || c.toNat == 0x205F || c.toNat == 0x3000

/-- Rust `str::trim()`: remove leading and trailing Unicode whitespace. -/
def rustTrim (l : List Char) : List Char :=
  ((l.dropWhile rustIsWhitespace).reverse.dropWhile rustIsWhitespace).reverse

/-- The marker tag scanned for by the stdout pump (lines 158-160). -/
def markerTag : List Char := "__SYSTEM_INFO__:".data

/-- The system-info probe command written to the shell's stdin; the same
string occurs at lines 103, 243 and 261 of the source. -/
def probeCmd : String :=
  "echo \"__SYSTEM_INFO__:$(pwd):$(whoami):$(hostname):$SHELL\"\n"

/-- A plain-output envelope, as built by the stdout pump for non-marker
chunks (lines 186-191). -/
def outputMsg (now : Int) (text : String) : TerminalMessage :=
  { msg_type := "output", data := text, timestamp := now, system_info := none }

/-- The system envelope built from the colon-split parts of a successfully
parsed marker line (lines 163-175): fields 1-4, each trimmed. -/
def systemMsgOfParts (now : Int) (parts : List (List Char)) : TerminalMessage :=
  { msg_type := "system",
    data := "System info updated",
    timestamp := now,
    system_info := some
      { pwd := String.mk (rustTrim (parts.getD 1 [])),
        user := String.mk (rustTrim (parts.getD 2 [])),
        hostname := String.mk (rustTrim (parts.getD 3 [])),
        shell := String.mk (rustTrim (parts.getD 4 [])) } }

/-- One iteration of the stdout pump's read loop on a decoded chunk
(lines 151-198): if the chunk contains the marker tag, the first
marker-containing line is split on `:`; with at least 5 parts a system
envelope is emitted and the rest of the chunk is skipped (`continue`);
otherwise the entire chunk is emitted as one output envelope.  The returned
list is the sequence of envelopes pushed onto the outbound channel for this
chunk. -/
def stdoutProcessChunk (now : Int) (output : String) : List TerminalMessage :=
  if containsSeq markerTag output.data then
    match (rustLines output.data).find? (fun line => containsSeq markerTag line) with
    | some info_line =>
      if 5 ≤ (splitOnChar ':' info_line).length then
        [systemMsgOfParts now (splitOnChar ':' info_line)]
      else [outputMsg now output]
    | none => [outputMsg now output]
  else [outputMsg now output]


/-- C1 (amended): for every stdout chunk whose FIRST marker-containing line
splits on `:` into at least five parts, the stdout pump emits exactly one
`system` envelope whose `system_info` fields are the whitespace-trimmed
parts 1-4 (path, user, host, shell), and nothing from the chunk — in
particular not the marker line — is forwarded as an `output` envelope. -/
theorem c1_first_marker_line_parsed (now : Int) (output : String) (info_line : List Char)
    (h1 : containsSeq markerTag output.data = true)
    (h2 : (rustLines output.data).find? (fun line => containsSeq markerTag line) = some info_line)
    (h3 : 5 ≤ (splitOnChar ':' info_line).length) :
    stdoutProcessChunk now output =
      [{ msg_type := "system", data := "System info updated", timestamp := now,
         system_info := some
           { pwd := String.mk (rustTrim ((splitOnChar ':' info_line).getD 1 [])),
             user := String.mk (rustTrim ((splitOnChar ':' info_line).getD 2 [])),
             hostname := String.mk (rustTrim ((splitOnChar ':' info_line).getD 3 [])),
             shell := String.mk (rustTrim ((splitOnChar ':' info_line).getD 4 [])) } }]
    ∧ (stdoutProcessChunk now output).all (fun m => m.msg_type != "output") = true := by
  have hmain : stdoutProcessChunk now output
      = [systemMsgOfParts now (splitOnChar ':' info_line)] := by
    unfold stdoutProcessChunk
    simp only [h1, h2, if_pos h3, if_true]
  refine ⟨hmain.trans rfl, ?_⟩
  rw [hmain]
  rfl

/-- Witness for C1: a one-line marker chunk with four well-formed fields
yields the system envelope with the trimmed fields and no output envelope. -/
theorem c1_witness :
    stdoutProcessChunk 0 "__SYSTEM_INFO__:/a: b :c:d\n" =
      [{ msg_type := "system", data := "System info updated", timestamp := 0,
         system_info := some { pwd := "/a", user := "b", hostname := "c", shell := "d" } }]
    ∧ (stdoutProcessChunk 0 "__SYSTEM_INFO__:/a: b :c:d\n").all
        (fun m => m.msg_type != "output") = true := by
  have h := c1_first_marker_line_parsed 0 "__SYSTEM_INFO__:/a: b :c:d\n"
      ("__SYSTEM_INFO__:/a: b :c:d".data) (by decide) (by decide) (by decide)
  exact ⟨h.1.trans (by decide), h.2⟩

/-- Counterexample to C1 as stated: this chunk contains a marker line that
splits into at least five parts (its second line), yet the pump emits no
`system` envelope at all and forwards that very marker line inside an
`output` envelope, because the code only ever parses the FIRST
marker-containing line of the chunk (here the malformed first line). -/
theorem c1_counterexample :
    (rustLines ("__SYSTEM_INFO__:x\n__SYSTEM_INFO__:p:u:h:s\n").data).any
        (fun l => containsSeq markerTag l && decide (5 ≤ (splitOnChar ':' l).length)) = true
    ∧ (stdoutProcessChunk 0 "__SYSTEM_INFO__:x\n__SYSTEM_INFO__:p:u:h:s\n").all
        (fun m => m.msg_type != "system") = true
    ∧ (stdoutProcessChunk 0 "__SYSTEM_INFO__:x\n__SYSTEM_INFO__:p:u:h:s\n").any
        (fun m => m.msg_type == "output"
          && containsSeq ("__SYSTEM_INFO__:p:u:h:s").data m.data.data) = true := by
  exact ⟨by decide, by decide, by decide⟩

/-- C2 (amended): for every stdout chunk whose FIRST marker-containing line
splits on `:` into fewer than five parts, the pump forwards the entire
chunk text as one plain `output` envelope: the line is not dropped, no
`system` envelope is emitted, and the pump does not fail. -/
theorem c2_first_marker_line_malformed (now : Int) (output : String) (info_line : List Char)
    (h1 : containsSeq markerTag output.data = true)
    (h2 : (rustLines output.data).find? (fun line => containsSeq markerTag line) = some info_line)
    (h3 : (splitOnChar ':' info_line).length < 5) :
    stdoutProcessChunk now output =
      [{ msg_type := "output", data := output, timestamp := now, system_info := none }]
    ∧ (stdoutProcessChunk now output).all (fun m => m.msg_type != "system") = true := by
  have hn : ¬ 5 ≤ (splitOnChar ':' info_line).length := by omega
  have hmain : stdoutProcessChunk now output = [outputMsg now output] := by
    unfold stdoutProcessChunk
    simp only [h1, h2, if_neg hn, if_true]
  refine ⟨hmain.trans rfl, ?_⟩
  rw [hmain]
  rfl

/-- Witness for C2: a marker-shaped line with a single trailing field is
forwarded verbatim as output and produces no system envelope. -/
theorem c2_witness :
    stdoutProcessChunk 0 "__SYSTEM_INFO__:x\n" =
      [{ msg_type := "output", data := "__SYSTEM_INFO__:x\n", timestamp := 0,
         system_info := none }]
    ∧ (stdoutProcessChunk 0 "__SYSTEM_INFO__:x\n").all
        (fun m => m.msg_type != "system") = true := by
  have h := c2_first_marker_line_malformed 0 "__SYSTEM_INFO__:x\n"
      ("__SYSTEM_INFO__:x".data) (by decide) (by decide) (by decide)
  exact h

/-- Counterexample to C2 as stated: this chunk contains a marker-shaped
line with fewer than five parts (its second line), yet the pump emits a
`system` envelope and forwards nothing as `output` — the malformed line is
dropped — because only the FIRST marker-containing line (here well-formed)
is examined; on its success the whole chunk is skipped. -/
theorem c2_counterexample :
    (rustLines ("__SYSTEM_INFO__:p:u:h:s\n__SYSTEM_INFO__:x\n").data).any
        (fun l => containsSeq markerTag l && decide ((splitOnChar ':' l).length < 5)) = true
    ∧ (stdoutProcessChunk 0 "__SYSTEM_INFO__:p:u:h:s\n__SYSTEM_INFO__:x\n").all
        (fun m => m.msg_type != "output") = true
    ∧ (stdoutProcessChunk 0 "__SYSTEM_INFO__:p:u:h:s\n__SYSTEM_INFO__:x\n").any
        (fun m => m.msg_type == "system") = true := by
  exact ⟨by decide, by decide, by decide⟩

/-- C3 (amended): for every stdout chunk, the pump emits either exactly the
whole chunk as one `output` envelope (when no marker line is found or the
found one is malformed), or exactly one `system` envelope and no `output`
envelope at all (when the first marker-containing line parses); in the
latter case the non-marker text of the chunk is suppressed, not emitted. -/
theorem c3_chunk_all_or_nothing (now : Int) (output : String) :
    stdoutProcessChunk now output =
      [{ msg_type := "output", data := output, timestamp := now, system_info := none }]
    ∨ ∃ si : SystemInfo, stdoutProcessChunk now output =
      [{ msg_type := "system", data := "System info updated", timestamp := now,
         system_info := some si }] := by
  unfold stdoutProcessChunk
  split
  · split
    · split
      · exact Or.inr ⟨_, rfl⟩
      · exact Or.inl rfl
    · exact Or.inl rfl
  · exact Or.inl rfl

/-- Counterexample to C3 as stated: the non-marker text of this chunk (the
line with the word hello) is never emitted: when the marker line parses
successfully the code skips the entire chunk, so no `output` envelope is
produced at all. -/
theorem c3_counterexample :
    containsSeq "hello".data ("hello\n__SYSTEM_INFO__:p:u:h:s\n").data = true
    ∧ (stdoutProcessChunk 0 "hello\n__SYSTEM_INFO__:p:u:h:s\n").all
        (fun m => m.msg_type != "output") = true
    ∧ (stdoutProcessChunk 0 "hello\n__SYSTEM_INFO__:p:u:h:s\n").all
        (fun m => !(containsSeq "hello".data m.data.data)) = true := by
  exact ⟨by decide, by decide, by decide⟩

/-- C10: when a marker line is successfully parsed, each `SystemInfo` field
is the corresponding colon-separated part with surrounding whitespace
trimmed. -/
theorem c10_fields_are_trimmed_parts (now : Int) (output : String) (info_line : List Char)
    (h1 : containsSeq markerTag output.data = true)
    (h2 : (rustLines output.data).find? (fun line => containsSeq markerTag line) = some info_line)
    (h3 : 5 ≤ (splitOnChar ':' info_line).length) :
    (stdoutProcessChunk now output).map (fun m => m.system_info) =
      [some { pwd := String.mk (rustTrim ((splitOnChar ':' info_line).getD 1 [])),
              user := String.mk (rustTrim ((splitOnChar ':' info_line).getD 2 [])),
              hostname := String.mk (rustTrim ((splitOnChar ':' info_line).getD 3 [])),
              shell := String.mk (rustTrim ((splitOnChar ':' info_line).getD 4 [])) }] := by
  have hmain : stdoutProcessChunk now output
      = [systemMsgOfParts now (splitOnChar ':' info_line)] := by
    unfold stdoutProcessChunk
    simp only [h1, h2, if_pos h3, if_true]
  rw [hmain]
  rfl

/-- Witness for C10: the raw first field of this marker line carries
surrounding spaces, and the client-visible value is the trimmed one, so the
two differ exactly by surrounding whitespace. -/
theorem c10_witness :
    (stdoutProcessChunk 0 "__SYSTEM_INFO__: /root :  me : box : /bin/sh\n").map
        (fun m => m.system_info) =
      [some { pwd := "/root", user := "me", hostname := "box", shell := "/bin/sh" }]
    ∧ (splitOnChar ':' ("__SYSTEM_INFO__: /root :  me : box : /bin/sh").data).getD 1 []
        = " /root ".data := by
  have h := c10_fields_are_trimmed_parts 0 "__SYSTEM_INFO__: /root :  me : box : /bin/sh\n"
      ("__SYSTEM_INFO__: /root :  me : box : /bin/sh".data) (by decide) (by decide) (by decide)
  exact ⟨h.trans (by decide), by decide⟩


/-- An action performed by the stdin pump on the child's stdin: either a
fixed settle delay or the write (plus flush) of a command string. -/
inductive StdinAct where
  | sleepMs (ms : Nat)
  | cmd (s : String)
deriving DecidableEq, Repr

/-- The priming sequence the stdin pump performs immediately after spawn
and before reading any item from the input channel (lines 238-246): an
initial delay, a change-directory-to-home command, a short delay, then one
system-info probe command. -/
def primingEvents (home : String) : List StdinAct :=
  [.sleepMs 500, .cmd ("cd " ++ home ++ "\n"), .sleepMs 100, .cmd probeCmd]

/-- The stdin pump's handling of one item received from the input channel
(lines 248-267): write the payload; if the payload contains a newline,
sleep the fixed settle delay and write one system-info probe command. -/
def processInput (input : String) : List StdinAct :=
  .cmd input ::
    (if input.data.contains '\n' then [.sleepMs 200, .cmd probeCmd] else [])

/-- The full happy-path trace of the stdin pump (lines 237-269) when the
input channel delivers `inputs` and every pipe write succeeds: the priming
sequence followed by the per-item handling, in order. -/
def stdinPumpEvents (home : String) (inputs : List String) : List StdinAct :=
  primingEvents home ++ inputs.flatMap processInput

/-- The commands actually written to the child's stdin in a trace, in
order (delays projected away). -/
def cmdsOf (tr : List StdinAct) : List String :=
  tr.filterMap (fun a => match a with | .cmd s => some s | .sleepMs _ => none)

/-- C4: for every item consumed from the input channel, the stdin pump
writes the payload, and then exactly when the payload contains a newline it
additionally sleeps the fixed 200 ms settle delay and writes exactly one
follow-up system-info probe command; a newline-free payload triggers no
follow-up write at all. -/
theorem c4_newline_triggers_one_probe (input : String) :
    (input.data.contains '\n' = true →
      processInput input = [.cmd input, .sleepMs 200, .cmd probeCmd])
    ∧ (input.data.contains '\n' = false →
      processInput input = [.cmd input]) := by
  refine ⟨fun h => ?_, fun h => ?_⟩ <;> simp only [processInput, h] <;> rfl

/-- Witness for C4: a newline-terminated payload is followed by exactly one
probe after the settle delay; the same payload without the newline is not. -/
theorem c4_witness :
    processInput "ls\n" = [.cmd "ls\n", .sleepMs 200, .cmd probeCmd]
    ∧ processInput "ls" = [.cmd "ls"] := by
  exact ⟨(c4_newline_triggers_one_probe "ls\n").1 (by decide),
         (c4_newline_triggers_one_probe "ls").2 (by decide)⟩

/-- C5: whatever the home directory and whatever the input channel later
delivers, the commands the stdin pump writes start with exactly the two
priming commands, in order — change directory to home, then one system-info
probe — before any input-derived command; the priming trace contains the
probe exactly once. -/
theorem c5_priming_two_commands (home : String) (inputs : List String) :
    cmdsOf (stdinPumpEvents home inputs) =
      ("cd " ++ home ++ "\n") :: probeCmd :: cmdsOf (inputs.flatMap processInput)
    ∧ (cmdsOf (primingEvents home)).count probeCmd = 1 := by
  constructor
  · simp [stdinPumpEvents, primingEvents, cmdsOf]
  · have hne : "cd " ++ home ++ "\n" ≠ probeCmd := by
      intro h
      have hd := congrArg (fun s => s.data.take 3) h
      simp [String.data_append] at hd
      have h2 : List.take 3 probeCmd.data = ['e', 'c', 'h'] := by decide
      rw [h2] at hd
      exact absurd hd (by decide)
    simp [primingEvents, cmdsOf, List.count_cons, hne]

/-- Witness for C5: with home directory `/root` and two queued inputs the
written command sequence is the cd, the priming probe, then the
input-derived writes. -/
theorem c5_witness :
    cmdsOf (stdinPumpEvents "/root" ["pwd\n", "x"]) =
      ("cd " ++ "/root" ++ "\n") :: probeCmd ::
        cmdsOf (["pwd\n", "x"].flatMap processInput)
    ∧ (cmdsOf (primingEvents "/root")).count probeCmd = 1 := by
  exact c5_priming_two_commands "/root" ["pwd\n", "x"]

/-- The outcome of reading one client frame in the inbound pump: either the
frame was a text frame that serde_json decoded into an envelope, or it was
undecodable (not text, or invalid JSON). -/
inductive InboundFrame where
  | decoded (m : TerminalMessage)
  | undecodable
deriving DecidableEq, Repr

/-- The inbound pump's dispatch for one received frame (lines 93-109): the
list of strings it forwards to the shell's input channel.  An `input`
envelope forwards its payload verbatim; a `request_system_info` envelope
forwards the probe command; any other envelope type, and any undecodable
frame, forwards nothing. -/
def inboundDispatch (f : InboundFrame) : List String :=
  match f with
  | .undecodable => []
  | .decoded m =>
    if m.msg_type = "input" then [m.data]
    else if m.msg_type = "request_system_info" then [probeCmd]
    else []

/-- The inbound pump over a whole sequence of client frames (lines 93-110):
the loop body never breaks, so every frame is dispatched in order until the
client stream ends. -/
def inboundPump (frames : List InboundFrame) : List String :=
  frames.flatMap inboundDispatch

/-- C7: an `input` envelope forwards its data verbatim; a
`request_system_info` envelope forwards the shell command that prints the
delimited system-info probe line; any other envelope type forwards
nothing; and an undecodable frame is dropped while the pump goes on to
process all remaining frames (the session does not end). -/
theorem c7_inbound_dispatch (m : TerminalMessage) (frames : List InboundFrame) :
    (m.msg_type = "input" → inboundDispatch (.decoded m) = [m.data])
    ∧ (m.msg_type = "request_system_info" → inboundDispatch (.decoded m) = [probeCmd])
    ∧ (m.msg_type ≠ "input" → m.msg_type ≠ "request_system_info" →
        inboundDispatch (.decoded m) = [])
    ∧ inboundPump (.undecodable :: frames) = inboundPump frames := by
  refine ⟨fun h => ?_, fun h => ?_, fun h h' => ?_, ?_⟩
  · simp [inboundDispatch, h]
  · have hne : m.msg_type ≠ "input" := by
      rw [h]
      intro hx
      have hd := congrArg String.data hx
      simp at hd
    simp [inboundDispatch, hne, h]
  · simp [inboundDispatch, h, h']
  · simp [inboundPump, inboundDispatch]

/-- Witness for C7: concrete frames of each kind, dispatched as claimed,
with an undecodable frame dropped at the head of a longer stream. -/
theorem c7_witness :
    inboundDispatch (.decoded { msg_type := "input", data := "echo hi\n",
                                timestamp := 7, system_info := none }) = ["echo hi\n"]
    ∧ inboundDispatch (.decoded { msg_type := "request_system_info", data := "",
                                  timestamp := 7, system_info := none }) = [probeCmd]
    ∧ inboundDispatch (.decoded { msg_type := "resize", data := "80x24",
                                  timestamp := 7, system_info := none }) = []
    ∧ inboundPump [.undecodable,
        .decoded { msg_type := "input", data := "pwd\n", timestamp := 0,
                   system_info := none }]
      = inboundPump [.decoded { msg_type := "input", data := "pwd\n", timestamp := 0,
                                system_info := none }] := by
  refine ⟨?_, ?_, ?_, ?_⟩
  · exact (c7_inbound_dispatch ⟨"input", "echo hi\n", 7, none⟩ []).1 (by decide)
  · exact (c7_inbound_dispatch ⟨"request_system_info", "", 7, none⟩ []).2.1 (by decide)
  · exact (c7_inbound_dispatch ⟨"resize", "80x24", 7, none⟩ []).2.2.1 (by decide) (by decide)
  · exact (c7_inbound_dispatch ⟨"input", "pwd\n", 0, none⟩
      [.decoded ⟨"input", "pwd\n", 0, none⟩]).2.2.2

/-- The session registry (line 30): a process-wide map from session id to
that session's outbound sink, modelled extensionally.  `σ` is the type of
sinks (in the source, unbounded channel senders). -/
def SessionMap (σ : Type) := String → Option σ

/-- Registry insertion, as performed at session start (lines 46-49):
HashMap insertion stores the sink under the id, overwriting any previous
entry; it never fails. -/
def register {σ : Type} (id : String) (sink : σ) (m : SessionMap σ) : SessionMap σ :=
  fun k => if k = id then some sink else m k

/-- Registry removal, as performed at session end (lines 86-89): HashMap
removal deletes the entry for the id if present and does nothing
otherwise. -/
def unregister {σ : Type} (id : String) (m : SessionMap σ) : SessionMap σ :=
  fun k => if k = id then none else m k

/-- C8: registering overwrites — after registering the same id twice the
map holds exactly the later sink at that id and at every other key agrees
with a single registration; looking up a registered id yields its sink;
unregistering removes the entry for the id (present or not, the id maps to
nothing afterwards), is a no-op at every key when the id is absent, and
leaves every other id's entry unchanged. -/
theorem c8_registry_ops {σ : Type} (id k : String) (s s' : σ) (m : SessionMap σ) :
    register id s (register id s' m) k = register id s m k
    ∧ register id s m id = some s
    ∧ unregister id m id = none
    ∧ (m id = none → unregister id m k = m k)
    ∧ (k ≠ id → unregister id m k = m k) := by
  refine ⟨?_, ?_, ?_, fun h => ?_, fun h => ?_⟩
  · by_cases hk : k = id <;> simp [register, hk]
  · simp [register]
  · simp [unregister]
  · by_cases hk : k = id <;> simp [unregister, hk, h]
  · simp [unregister, h]

/-- Witness for C8: on concrete registries over `Nat` sinks:
re-registration overwrites, lookup finds the sink, unregistering id `a`
removes `a`'s present entry, unregistering an absent id is a no-op, and
unregistering id `b` leaves id `a` registered. -/
theorem c8_witness :
    register "a" (2 : Nat) (register "a" 1 (fun _ => none)) "b"
      = register "a" 2 (fun _ => (none : Option Nat)) "b"
    ∧ register "a" (2 : Nat) (fun _ => none) "a" = some 2
    ∧ unregister "a" (register "a" (2 : Nat) (fun _ => none)) "a" = none
    ∧ unregister "b" (fun _ => (none : Option Nat)) "a" = none
    ∧ unregister "b" (register "a" (2 : Nat) (fun _ => none)) "a" = some 2 := by
  refine ⟨(c8_registry_ops "a" "b" 2 1 (fun _ => none)).1,
    (c8_registry_ops "a" "a" 2 1 (fun _ => none)).2.1,
    (c8_registry_ops "a" "a" 2 1 (register "a" (2 : Nat) (fun _ => none))).2.2.1,
    ?_, ?_⟩
  · exact (c8_registry_ops "b" "a" 2 1 (fun _ => (none : Option Nat))).2.2.2.1 rfl
  · exact ((c8_registry_ops "b" "a" 2 1
      (register "a" (2 : Nat) (fun _ => none))).2.2.2.2 (by decide)).trans (by rfl)


/-- Decimal digit character for `d < 10`. -/
def digitChar (d : Nat) : Char :=
  match d with
  | 0 => '0' | 1 => '1' | 2 => '2' | 3 => '3' | 4 => '4'
  | 5 => '5' | 6 => '6' | 7 => '7' | 8 => '8' | _ => '9'

/-- Lowercase hexadecimal digit character for `d < 16`. -/
def hexDigit (d : Nat) : Char :=
  match d with
  | 10 => 'a' | 11 => 'b' | 12 => 'c' | 13 => 'd' | 14 => 'e' | 15 => 'f'
  | n => digitChar n

/-- Decimal digits of a natural number, most significant first; fuel-based
structural recursion (any `fuel ≥ n` gives the full representation) so that
it evaluates inside the kernel. -/
def natDecimalAux : Nat → Nat → List Char → List Char
  | 0, n, acc => digitChar (n % 10) :: acc
  | fuel + 1, n, acc =>
    if n < 10 then digitChar n :: acc
    else natDecimalAux fuel (n / 10) (digitChar (n % 10) :: acc)

/-- Decimal representation of a natural number. -/
def natDecimal (n : Nat) : List Char := natDecimalAux n n []

/-- Decimal representation of an integer, as serde_json writes the `i64`
timestamp field. -/
def intDecimal : Int → List Char
  | .ofNat n => natDecimal n
  | .negSucc n => '-' :: natDecimal (n + 1)

/-- serde_json's escaping of one character inside a JSON string literal:
quote, backslash and the named control escapes get a backslash form, other
control characters a `u00` hex form, everything else is copied. -/
def jsonEscapeChar (c : Char) : List Char :=
  if c = '"' then ['\\', '"']
  else if c = '\\' then ['\\', '\\']
  else if c = '\x08' then ['\\', 'b']
  else if c = '\t' then ['\\', 't']
  else if c = '\n' then ['\\', 'n']
  else if c = '\x0c' then ['\\', 'f']
  else if c = '\r' then ['\\', 'r']
  else if c.toNat < 32 then
    ['\\', 'u', '0', '0', hexDigit (c.toNat / 16), hexDigit (c.toNat % 16)]
  else [c]

/-- A serialized JSON string literal: quote, escaped characters, quote. -/
def jsonStringChars (s : String) : List Char :=
  '"' :: (s.data.flatMap jsonEscapeChar ++ ['"'])

/-- serde_json serialization of `SystemInfo`, fields in declaration order
(lines 22-28). -/
def encodeSystemInfo (si : SystemInfo) : List Char :=
  '\x7b' :: ("\"pwd\":".data ++ (jsonStringChars si.pwd
    ++ (",\"user\":".data ++ (jsonStringChars si.user
    ++ (",\"hostname\":".data ++ (jsonStringChars si.hostname
    ++ (",\"shell\":".data ++ (jsonStringChars si.shell
    ++ ['\x7d']))))))))

/-- The serialized `system_info` field value: JSON `null` or the object. -/
def sysInfoChars : Option SystemInfo → List Char
  | none => "null".data
  | some si => encodeSystemInfo si

/-- The characters between the outer braces of a serialized envelope. -/
def encodeInner (m : TerminalMessage) : List Char :=
  "\"type\":".data ++ (jsonStringChars m.msg_type
    ++ (",\"data\":".data ++ (jsonStringChars m.data
    ++ (",\"timestamp\":".data ++ (intDecimal m.timestamp
    ++ (",\"system_info\":".data ++ sysInfoChars m.system_info))))))

/-- serde_json serialization of a `TerminalMessage` envelope, as produced
at lines 78, 177, 193 and 224 of the source: a flat JSON object in
declaration order, with `msg_type` under the key `type`. -/
def encodeTerminalMessage (m : TerminalMessage) : String :=
  String.mk ('\x7b' :: (encodeInner m ++ ['\x7d']))

/-- The test the outbound pump applies to each item drained from the
outbound channel (line 65): Rust `starts_with` / `ends_with` with
one-character patterns, i.e. the first character is a left brace and the
last a right brace. -/
def isBraced (s : String) : Bool :=
  (s.data.head? == some '\x7b') && (s.data.getLast? == some '\x7d')

/-- The wrapping envelope built for a non-braced item (lines 72-77). -/
def wrapOutput (now : Int) (data : String) : TerminalMessage :=
  { msg_type := "output", data := data, timestamp := now, system_info := none }

/-- The outbound pump's action on one item drained from the outbound
channel (lines 63-84): the text frame written to the client, where `now` is
the timestamp sampled for the wrapping case. -/
def outboundStep (now : Int) (data : String) : String :=
  if isBraced data then data else encodeTerminalMessage (wrapOutput now data)

/-- Consume an expected literal prefix, returning the remainder. -/
def eatLit : List Char → List Char → Option (List Char)
  | [], s => some s
  | _ :: _, [] => none
  | c :: p, d :: s => if d = c then eatLit p s else none

/-- Consume the body of a JSON string literal after its opening quote:
characters up to an unescaped closing quote, a backslash always escaping
the following character. -/
def eatStringBody : List Char → Option (List Char)
  | [] => none
  | c :: rest =>
    if c = '"' then some rest
    else if c = '\\' then
      match rest with
      | [] => none
      | _ :: rest2 => eatStringBody rest2
    else eatStringBody rest

/-- Consume a JSON string literal including its quotes. -/
def eatJsonString : List Char → Option (List Char)
  | '"' :: rest => eatStringBody rest
  | _ => none

/-- Skip a maximal run of decimal digits. -/
def skipDigits : List Char → List Char
  | [] => []
  | c :: rest => if c.isDigit then skipDigits rest else c :: rest

/-- Consume a JSON integer: an optional minus sign and at least one
decimal digit. -/
def eatInt (s : List Char) : Option (List Char) :=
  match s with
  | [] => none
  | c :: rest =>
    match (if c = '-' then rest else c :: rest) with
    | [] => none
    | d :: rest2 => if d.isDigit then some (skipDigits rest2) else none

/-- Consume a serialized `SystemInfo` object. -/
def eatSysInfoObj (s : List Char) : Option (List Char) := do
  let r ← eatLit "\x7b\"pwd\":".data s
  let r ← eatJsonString r
  let r ← eatLit ",\"user\":".data r
  let r ← eatJsonString r
  let r ← eatLit ",\"hostname\":".data r
  let r ← eatJsonString r
  let r ← eatLit ",\"shell\":".data r
  let r ← eatJsonString r
  eatLit "\x7d".data r

/-- Consume the `system_info` field value: `null` or the object. -/
def eatSysInfoVal (s : List Char) : Option (List Char) :=
  match eatLit "null".data s with
  | some r => some r
  | none => eatSysInfoObj s

/-- Modelled from the spec: section 6 defines the client-visible envelope
as a flat JSON object with keys `type`, `data`, `timestamp` and
`system_info` (the latter `null` or an object with the four string
fields).  The source contains no explicit is-envelope check — the outbound
pump uses the brace test `isBraced` instead — so the spec's notion of a
"complete structured envelope" is modelled by this syntactic validator
over the exact serde_json layout the server emits. -/
def decodesAsEnvelope (s : String) : Bool :=
  (do
    let r ← eatLit "\x7b\"type\":".data s.data
    let r ← eatJsonString r
    let r ← eatLit ",\"data\":".data r
    let r ← eatJsonString r
    let r ← eatLit ",\"timestamp\":".data r
    let r ← eatInt r
    let r ← eatLit ",\"system_info\":".data r
    let r ← eatSysInfoVal r
    eatLit "\x7d".data r) == some []




theorem digitChar_isDigit (d : Nat) : (digitChar d).isDigit = true := by
  unfold digitChar
  split <;> decide

theorem isDigit_ne_qb (c : Char) (h : c.isDigit = true) : c ≠ '"' ∧ c ≠ '\\' := by
  constructor <;> intro e <;> rw [e] at h <;> exact absurd h (by decide)

theorem hexDigit_ne_qb (d : Nat) : hexDigit d ≠ '"' ∧ hexDigit d ≠ '\\' := by
  unfold hexDigit
  split
  · decide
  · decide
  · decide
  · decide
  · decide
  · decide
  · exact isDigit_ne_qb _ (digitChar_isDigit _)

theorem eatStringBody_esc (x : Char) (rest : List Char) :
    eatStringBody ('\\' :: x :: rest) = eatStringBody rest := rfl

theorem eatStringBody_quote (r : List Char) : eatStringBody ('"' :: r) = some r := by
  rw [eatStringBody.eq_def]
  simp

theorem eatStringBody_normal (c : Char) (rest : List Char)
    (h1 : c ≠ '"') (h2 : c ≠ '\\') :
    eatStringBody (c :: rest) = eatStringBody rest := by
  rw [eatStringBody.eq_def]
  simp [h1, h2]

set_option maxHeartbeats 1000000 in
theorem eatStringBody_escaped (l : List Char) (r : List Char) :
    eatStringBody (l.flatMap jsonEscapeChar ++ ('"' :: r)) = some r := by
  induction l with
  | nil => simp [eatStringBody_quote]
  | cons c l ih =>
    rw [List.flatMap_cons, List.append_assoc]
    unfold jsonEscapeChar
    split_ifs with h1 h2 h3 h4 h5 h6 h7 h8
    · rw [List.cons_append, List.cons_append, List.nil_append, eatStringBody_esc]
      exact ih
    · rw [List.cons_append, List.cons_append, List.nil_append, eatStringBody_esc]
      exact ih
    · rw [List.cons_append, List.cons_append, List.nil_append, eatStringBody_esc]
      exact ih
    · rw [List.cons_append, List.cons_append, List.nil_append, eatStringBody_esc]
      exact ih
    · rw [List.cons_append, List.cons_append, List.nil_append, eatStringBody_esc]
      exact ih
    · rw [List.cons_append, List.cons_append, List.nil_append, eatStringBody_esc]
      exact ih
    · rw [List.cons_append, List.cons_append, List.nil_append, eatStringBody_esc]
      exact ih
    · obtain ⟨ha1, ha2⟩ := hexDigit_ne_qb (c.toNat / 16)
      obtain ⟨hb1, hb2⟩ := hexDigit_ne_qb (c.toNat % 16)
      rw [List.cons_append, List.cons_append, List.cons_append, List.cons_append,
        List.cons_append, List.cons_append, List.nil_append, eatStringBody_esc,
        eatStringBody_normal '0' _ (by decide) (by decide),
        eatStringBody_normal '0' _ (by decide) (by decide),
        eatStringBody_normal _ _ ha1 ha2, eatStringBody_normal _ _ hb1 hb2]
      exact ih
    · rw [List.cons_append, List.nil_append, eatStringBody_normal c _ h1 h2]
      exact ih

theorem eatJsonString_encoded (s : String) (r : List Char) :
    eatJsonString (jsonStringChars s ++ r) = some r := by
  have h : jsonStringChars s ++ r
      = '"' :: (s.data.flatMap jsonEscapeChar ++ ('"' :: r)) := by
    simp [jsonStringChars]
  rw [h]
  show eatStringBody (s.data.flatMap jsonEscapeChar ++ ('"' :: r)) = some r
  exact eatStringBody_escaped s.data r

theorem eatLit_append (p r : List Char) : eatLit p (p ++ r) = some r := by
  induction p with
  | nil => rfl
  | cons c p ih => simp [eatLit, ih]

theorem eatLit_self (p : List Char) : eatLit p p = some [] := by
  have h := eatLit_append p []
  rwa [List.append_nil] at h

theorem skipDigits_run (l : List Char) (c : Char) (r : List Char)
    (hl : ∀ x ∈ l, x.isDigit = true) (hc : c.isDigit = false) :
    skipDigits (l ++ c :: r) = c :: r := by
  induction l with
  | nil => simp [skipDigits, hc]
  | cons x l ih =>
    have hx : x.isDigit = true := hl x (by simp)
    rw [List.cons_append, skipDigits.eq_def]
    simp only [hx, if_true]
    exact ih (fun y hy => hl y (by simp [hy]))

theorem isDigit_ne_minus (c : Char) (h : c.isDigit = true) : c ≠ '-' := by
  intro e
  rw [e] at h
  exact absurd h (by decide)

theorem natDecimalAux_digits (fuel : Nat) : ∀ n acc,
    (∀ c ∈ acc, c.isDigit = true) →
    ∀ c ∈ natDecimalAux fuel n acc, c.isDigit = true := by
  induction fuel with
  | zero =>
    intro n acc hacc c hc
    simp only [natDecimalAux] at hc
    rcases List.mem_cons.mp hc with h | h
    · rw [h]; exact digitChar_isDigit _
    · exact hacc c h
  | succ fuel ih =>
    intro n acc hacc c hc
    simp only [natDecimalAux] at hc
    by_cases hn : n < 10
    · rw [if_pos hn] at hc
      rcases List.mem_cons.mp hc with h | h
      · rw [h]; exact digitChar_isDigit _
      · exact hacc c h
    · rw [if_neg hn] at hc
      refine ih _ _ ?_ c hc
      intro x hx
      rcases List.mem_cons.mp hx with h | h
      · rw [h]; exact digitChar_isDigit _
      · exact hacc x h

theorem natDecimalAux_ne_nil (fuel : Nat) : ∀ n acc, natDecimalAux fuel n acc ≠ [] := by
  induction fuel with
  | zero => intro n acc; simp [natDecimalAux]
  | succ fuel ih =>
    intro n acc
    simp only [natDecimalAux]
    split
    · simp
    · exact ih _ _

theorem natDecimal_digits (n : Nat) : ∀ c ∈ natDecimal n, c.isDigit = true :=
  natDecimalAux_digits n n [] (by simp)

theorem natDecimal_ne_nil (n : Nat) : natDecimal n ≠ [] := natDecimalAux_ne_nil n n []

theorem eatInt_natDecimal (n : Nat) (c : Char) (r : List Char) (hc : c.isDigit = false) :
    eatInt (natDecimal n ++ c :: r) = some (c :: r) := by
  rcases hne : natDecimal n with _ | ⟨d, ds⟩
  · exact absurd hne (natDecimal_ne_nil n)
  · have hd : d.isDigit = true := natDecimal_digits n d (by rw [hne]; simp)
    have hds : ∀ x ∈ ds, x.isDigit = true :=
      fun x hx => natDecimal_digits n x (by rw [hne]; simp [hx])
    have hdm : d ≠ '-' := isDigit_ne_minus d hd
    rw [List.cons_append, eatInt.eq_def]
    simp only [if_neg hdm, hd, if_true]
    rw [skipDigits_run ds c r hds hc]

theorem eatInt_intDecimal (t : Int) (c : Char) (r : List Char) (hc : c.isDigit = false) :
    eatInt (intDecimal t ++ c :: r) = some (c :: r) := by
  rcases t with n | n
  · exact eatInt_natDecimal n c r hc
  · show eatInt (('-' :: natDecimal (n + 1)) ++ c :: r) = some (c :: r)
    rcases hne : natDecimal (n + 1) with _ | ⟨d, ds⟩
    · exact absurd hne (natDecimal_ne_nil (n + 1))
    · have hd : d.isDigit = true := natDecimal_digits (n + 1) d (by rw [hne]; simp)
      have hds : ∀ x ∈ ds, x.isDigit = true :=
        fun x hx => natDecimal_digits (n + 1) x (by rw [hne]; simp [hx])
      rw [List.cons_append, eatInt.eq_def]
      simp only [if_pos rfl, List.cons_append, hd, if_true]
      rw [skipDigits_run ds c r hds hc]

theorem eatSysInfoObj_encoded (si : SystemInfo) (r : List Char) :
    eatSysInfoObj (encodeSystemInfo si ++ r) = some r := by
  have h : encodeSystemInfo si ++ r
      = "\x7b\"pwd\":".data ++ (jsonStringChars si.pwd ++ (",\"user\":".data
        ++ (jsonStringChars si.user ++ (",\"hostname\":".data
        ++ (jsonStringChars si.hostname ++ (",\"shell\":".data
        ++ (jsonStringChars si.shell ++ ("\x7d".data ++ r)))))))) := by
    rw [show ("\x7b\"pwd\":".data : List Char) = '\x7b' :: "\"pwd\":".data from rfl,
      show ("\x7d".data : List Char) = ['\x7d'] from rfl]
    simp [encodeSystemInfo, List.append_assoc]
  rw [h]
  simp only [eatSysInfoObj, Option.bind_eq_bind, Option.some_bind,
    eatLit_append, eatJsonString_encoded]

theorem eatSysInfoVal_encoded (o : Option SystemInfo) (r : List Char) :
    eatSysInfoVal (sysInfoChars o ++ r) = some r := by
  rcases o with _ | si
  · show eatSysInfoVal ("null".data ++ r) = some r
    unfold eatSysInfoVal
    rw [eatLit_append]
  · show eatSysInfoVal (encodeSystemInfo si ++ r) = some r
    unfold eatSysInfoVal
    have hfail : eatLit "null".data (encodeSystemInfo si ++ r) = none := rfl
    rw [hfail]
    exact eatSysInfoObj_encoded si r

theorem encode_decodesAsEnvelope (m : TerminalMessage) :
    decodesAsEnvelope (encodeTerminalMessage m) = true := by
  have hdata : (encodeTerminalMessage m).data
      = "\x7b\"type\":".data ++ (jsonStringChars m.msg_type ++ (",\"data\":".data
        ++ (jsonStringChars m.data ++ (",\"timestamp\":".data
        ++ (intDecimal m.timestamp ++ (",\"system_info\":".data
        ++ (sysInfoChars m.system_info ++ "\x7d".data))))))) := by
    show '\x7b' :: (encodeInner m ++ ['\x7d']) = _
    rw [show ("\x7b\"type\":".data : List Char) = '\x7b' :: "\"type\":".data from rfl,
      show ("\x7d".data : List Char) = ['\x7d'] from rfl]
    simp [encodeInner, List.append_assoc]
  have hint : ∀ X : List Char,
      eatInt (intDecimal m.timestamp ++ (",\"system_info\":".data ++ X))
        = some (",\"system_info\":".data ++ X) := by
    intro X
    rw [show (",\"system_info\":".data : List Char) ++ X
      = ',' :: ("\"system_info\":".data ++ X) from rfl]
    exact eatInt_intDecimal m.timestamp ',' _ (by decide)
  unfold decodesAsEnvelope
  rw [hdata]
  simp only [Option.bind_eq_bind, Option.some_bind, eatLit_append,
    eatJsonString_encoded, hint, eatSysInfoVal_encoded, eatLit_self]
  rfl

theorem encode_isBraced (m : TerminalMessage) :
    isBraced (encodeTerminalMessage m) = true := by
  unfold isBraced
  show ((('\x7b' :: (encodeInner m ++ ['\x7d'])).head? == some '\x7b')
    && (('\x7b' :: (encodeInner m ++ ['\x7d'])).getLast? == some '\x7d')) = true
  rw [← List.cons_append, List.getLast?_concat]
  rfl

/-- C6 (amended): the outbound pump's pass-through criterion is the brace
test — first character a left brace, last character a right brace — rather
than full envelope validity: a braced item is written verbatim and any
other item is wrapped as an `output` envelope stamped with the current
timestamp.  Every complete structured envelope (a serde_json-serialized
`TerminalMessage`) is braced and satisfies the spec's envelope shape, so
every complete structured envelope is indeed passed through verbatim. -/
theorem c6_outbound_brace_test (now : Int) (data : String) (m : TerminalMessage) :
    (isBraced data = true → outboundStep now data = data)
    ∧ (isBraced data = false →
        outboundStep now data = encodeTerminalMessage (wrapOutput now data))
    ∧ isBraced (encodeTerminalMessage m) = true
    ∧ decodesAsEnvelope (encodeTerminalMessage m) = true
    ∧ outboundStep now (encodeTerminalMessage m) = encodeTerminalMessage m := by
  refine ⟨fun h => ?_, fun h => ?_, encode_isBraced m, encode_decodesAsEnvelope m, ?_⟩
  · simp [outboundStep, h]
  · simp [outboundStep, h]
  · simp [outboundStep, encode_isBraced m]

/-- Witness for C6: a concrete braced non-envelope is passed verbatim, a
concrete plain string is wrapped, and a concrete serialized envelope is
braced, shape-valid and passed verbatim. -/
theorem c6_witness :
    outboundStep 0 "\x7ba\x7d" = "\x7ba\x7d"
    ∧ outboundStep 0 "plain" = encodeTerminalMessage (wrapOutput 0 "plain")
    ∧ isBraced (encodeTerminalMessage ⟨"output", "hi", 5, none⟩) = true
    ∧ decodesAsEnvelope (encodeTerminalMessage ⟨"output", "hi", 5, none⟩) = true
    ∧ outboundStep 5 (encodeTerminalMessage ⟨"output", "hi", 5, none⟩)
        = encodeTerminalMessage ⟨"output", "hi", 5, none⟩ := by
  refine ⟨(c6_outbound_brace_test 0 "\x7ba\x7d" ⟨"output", "hi", 5, none⟩).1 (by decide),
    (c6_outbound_brace_test 0 "plain" ⟨"output", "hi", 5, none⟩).2.1 (by decide),
    (c6_outbound_brace_test 0 "x" ⟨"output", "hi", 5, none⟩).2.2.1,
    (c6_outbound_brace_test 0 "x" ⟨"output", "hi", 5, none⟩).2.2.2.1,
    (c6_outbound_brace_test 5 "x" ⟨"output", "hi", 5, none⟩).2.2.2.2⟩

/-- Counterexample to C6 as stated: the three-character item brace-x-brace
is not a complete structured envelope (the spec's envelope shape rejects
it), yet the outbound pump writes it to the client verbatim instead of
wrapping it as an `output` envelope. -/
theorem c6_counterexample :
    decodesAsEnvelope "\x7bx\x7d" = false
    ∧ outboundStep 0 "\x7bx\x7d" = "\x7bx\x7d"
    ∧ (outboundStep 0 "\x7bx\x7d"
        == encodeTerminalMessage (wrapOutput 0 "\x7bx\x7d")) = false := by
  refine ⟨by decide, by decide, by decide⟩


/-- The per-session state relevant to registry cleanup, after the bridge of
`handle_socket` is running.  `registryHas` records whether the session's
entry is still in the registry; `queue` is the buffer of the unbounded
outbound channel; `otherSenders` counts the live senders to that channel
other than the clone stored in the registry itself (the original `tx` of
line 42, the shell task's `shell_tx` of line 52 and its clones in the
stdout/stderr pumps, lines 146 and 205); `clientOpen` records whether
writes on the websocket send half still succeed; `outboundDone` records
whether the outbound pump (lines 62-89) has returned. -/
structure BridgeState where
  registryHas : Bool
  queue : List String
  otherSenders : Nat
  clientOpen : Bool
  outboundDone : Bool
deriving DecidableEq, Repr

/-- Live senders of the outbound channel.  The registry entry stores a
clone of the sender (`tx.clone()`, line 48), so the channel counts one
extra live sender exactly while the entry is present. -/
def sendersLive (s : BridgeState) : Nat :=
  s.otherSenders + (if s.registryHas then 1 else 0)

/-- One scheduling step of the outbound pump, transcribed from
`handle_socket` lines 62-89 together with tokio's unbounded-channel
contract (`recv` yields an item if one is buffered, yields `None` once the
buffer is empty and every sender has been dropped, and otherwise parks):

* if the pump has returned there is nothing to run;
* with a buffered item, the pump sends it to the client; on success it
  loops, on a client-write failure it breaks out of the loop and runs its
  epilogue, which removes the registry entry (lines 86-88);
* with an empty buffer and no live sender, `recv` returns `None`, the loop
  ends and the same epilogue removes the entry;
* with an empty buffer and a live sender, `recv` parks: no step exists.

Removal of the registry entry appears nowhere else in the source: the
final `select!` of `handle_socket` (lines 113-118) has empty arms and the
shell adapter never touches the registry, so this function carries every
removal site. -/
def outboundTaskStep (s : BridgeState) : Option BridgeState :=
  if s.outboundDone then none
  else
    match s.queue with
    | _ :: rest =>
      if s.clientOpen then some { s with queue := rest }
      else some { s with queue := rest, registryHas := false, outboundDone := true }
    | [] =>
      if sendersLive s = 0 then
        some { s with registryHas := false, outboundDone := true }
      else none

/-- Run up to `n` scheduling steps of the outbound pump, stopping early
when no step exists. -/
def iterateOutbound : Nat → BridgeState → BridgeState
  | 0, s => s
  | n + 1, s =>
    match outboundTaskStep s with
    | none => s
    | some s2 => iterateOutbound n s2

/-- The state reached when the client disconnects while the shell is idle:
the inbound pump finishes first (`receiver.next()` returns `None`, lines
93-110), which lets `handle_socket`'s select return and drop `tx`, lets the
shell's stdin pump end and the child exit, after which the stdout/stderr
pumps hit EOF and drop their sender clones without sending — leaving an
empty outbound buffer, no live sender besides the registry's own clone, a
closed client, the entry still registered, and the outbound pump still in
its receive loop. -/
def leakedState : BridgeState :=
  { registryHas := true, queue := [], otherSenders := 0,
    clientOpen := false, outboundDone := false }

/-- C9 fails on the code: in `leakedState` — reached when the inbound pump
is the first of the three bridge tasks to complete and the shell is quiet —
the outbound pump can never take another step, because `rx.recv()` waits on
a channel that is held open precisely by the sender clone stored in the
registry entry, and the only removal site (lines 86-88) runs after that
receive loop ends.  Consequently the registry entry survives every number
of scheduling steps: it is never removed, contradicting the claim that the
entry is removed on every termination path. -/
theorem c9_cleanup_leak :
    outboundTaskStep leakedState = none
    ∧ ∀ n : Nat, (iterateOutbound n leakedState).registryHas = true := by
  have hstep : outboundTaskStep leakedState = none := by decide
  refine ⟨hstep, ?_⟩
  intro n
  cases n with
  | zero => rfl
  | succ n =>
    show (match outboundTaskStep leakedState with
      | none => leakedState
      | some s2 => iterateOutbound n s2).registryHas = true
    rw [hstep]
    rfl

end SocketShell
